import Mathlib

/-!
Verification development for the 3D-Keychain-Maker backend
(`backend/server.py`).

The backend is a small Flask service whose core pipeline sanitizes a text
label, resolves a font from a closed catalog, computes the lateral offset
of a mounting-hole tab, synthesizes an OpenSCAD scene description,
invokes the external OpenSCAD renderer inside a scoped temporary
directory, and streams back the resulting STL bytes or a structured
error.

Embedding conventions:
- Python floats are modelled as exact rationals `ℚ`; decimal literals
  such as `0.57` denote the exact rational `57/100`.
- JSON request payloads are modelled by the inductive `Json` (strings,
  numbers, null) and an association list of fields; `dict_get` models
  Python's `dict.get(key, default)`.
- Python exceptions are modelled by `Except String`; the `except
  Exception` handler at the bottom of `generate_stl` corresponds to the
  final error branches of the Lean `generate_stl`.
- The external renderer subprocess is modelled by `RenderBehavior`: it
  either completes with an exit code and captured stdout/stderr plus an
  optional output file, or raises.
- The temporary directory created by `with tempfile.TemporaryDirectory()`
  is tracked by the `tmpdir_alive` field of `RunResult`: Python's `with`
  statement runs the cleanup on every exit path of the block, so each
  return path of the model records whether the directory still exists
  when the route handler returns.
-/

/-- JSON values as far as the backend inspects them: text, numbers and
null. -/
inductive Json where
  | str (s : String)
  | num (q : ℚ)
  | null
deriving DecidableEq, Repr

/-- Model of Python's `dict.get(key, default)` over an association list
of request fields. -/
def dict_get (data : List (String × Json)) (key : String) (default : Json) : Json :=
  match data.find? (fun kv => kv.1 == key) with
  | some kv => kv.2
  | none => default

/-- Character class of the regex `[a-zA-Z0-9 _-]` in `sanitize_name`
(the complement of the class removed by `re.sub`). -/
def allowed_char (c : Char) : Bool :=
  ('a' ≤ c && c ≤ 'z') || ('A' ≤ c && c ≤ 'Z') || ('0' ≤ c && c ≤ '9')
    || c == ' ' || c == '_' || c == '-'

/-- `sanitize_name` (server.py line 32): remove every character outside
`[a-zA-Z0-9 _-]` and keep the first 20 remaining characters. -/
def sanitize_name (name : String) : String :=
  ((name.toList.filter allowed_char).take 20).asString

/-- `re.sub` requires a text argument: applying `sanitize_name` to a
request field raises `TypeError` when the field is not a string.  The
modelled exception text abbreviates CPython's message. -/
def sanitize_name_py (v : Json) : Except String String :=
  match v with
  | .str s => .ok (sanitize_name s)
  | _ => .error "expected string or bytes-like object"

/-- `calculate_hole_offset` (server.py line 36): hole-tab offset with
smooth auto-adjustment.  `name_len` is the Python int `len(name)`,
coerced into `ℚ` because all subsequent arithmetic is float
arithmetic. -/
def calculate_hole_offset (name : String) (width_option border_thickness : ℚ) : ℚ :=
  let name_len : ℚ := name.length
  let multiplier : ℚ := 0.57
  let border_factor : ℚ := 2.0 + (name_len - 2) * 0.1
  name_len * width_option * multiplier / 2 + border_thickness * border_factor

/-- Decimal-digit string to natural number. -/
def digitsToNat (cs : List Char) : Nat :=
  cs.foldl (fun a c => a * 10 + (c.toNat - 48)) 0

/-- Model of Python `float()` applied to a string, restricted to the
plain decimal forms `[+-]?digits[.digits]?` and `[+-]?.digits`; every
other string raises `ValueError` (exponents, `inf` and `nan` are outside
the model's scope, as the spec's examples only involve plain decimals or
non-numeric text). -/
def parseFloatQ (s : String) : Option ℚ :=
  let cs := s.toList
  let signed : ℚ × List Char :=
    match cs with
    | '-' :: t => (-1, t)
    | '+' :: t => (1, t)
    | _ => (1, cs)
  let sign := signed.1
  let body := signed.2
  let intPart := body.takeWhile Char.isDigit
  let rest := body.dropWhile Char.isDigit
  match rest with
  | [] =>
    if intPart.isEmpty then none
    else some (sign * (digitsToNat intPart : ℚ))
  | '.' :: fracPart =>
    if fracPart.all Char.isDigit && (!intPart.isEmpty || !fracPart.isEmpty) then
      some (sign * ((digitsToNat intPart : ℚ)
        + (digitsToNat fracPart : ℚ) / (10 : ℚ) ^ fracPart.length))
    else none
  | _ => none

/-- Model of Python `float(x)` on a JSON field: numbers pass through,
strings are parsed as decimals, anything else raises. -/
def pyFloat (v : Json) : Except String ℚ :=
  match v with
  | .num q => .ok q
  | .str s =>
    match parseFloatQ s with
    | some q => .ok q
    | none => .error ("could not convert string to float: " ++ s)
  | .null => .error "float() argument must be a string or a real number, not NoneType"

instance {ε α : Type} [DecidableEq ε] [DecidableEq α] : DecidableEq (Except ε α) := fun a b =>
  match a, b with
  | .error e1, .error e2 =>
    if h : e1 = e2 then isTrue (by rw [h]) else isFalse (fun hh => h (by cases hh; rfl))
  | .error _, .ok _ => isFalse (fun hh => Except.noConfusion hh)
  | .ok _, .error _ => isFalse (fun hh => Except.noConfusion hh)
  | .ok a1, .ok a2 =>
    if h : a1 = a2 then isTrue (by rw [h]) else isFalse (fun hh => h (by cases hh; rfl))

/-- Left-pad a digit string with zeros to width `n`. -/
def leftPadZeros (n : Nat) (s : String) : String :=
  (List.replicate (n - s.length) '0').asString ++ s

/-- Decimal rendering of a nonnegative rational with a finite decimal
expansion, mirroring Python's `str()` on floats under the exact-rational
embedding (an integral value prints with a trailing `.0`, e.g. `2.0`;
otherwise the exact digits print, e.g. `12.55`). -/
def pyFloatStrNN (q : ℚ) : String :=
  if q.den = 1 then toString q.num ++ ".0"
  else
    match (List.range 30).find? (fun k => (q * (10 : ℚ) ^ (k + 1)).den = 1) with
    | some k =>
      let m := (q * (10 : ℚ) ^ (k + 1)).num.toNat
      let ip := m / 10 ^ (k + 1)
      let fp := m % 10 ^ (k + 1)
      toString ip ++ "." ++ leftPadZeros (k + 1) (toString fp)
    | none => toString q.num ++ "/" ++ toString q.den

/-- Signed decimal rendering of a rational (Python float formatting
under the exact-rational embedding). -/
def pyFloatStr (q : ℚ) : String :=
  if q < 0 then "-" ++ pyFloatStrNN (-q) else pyFloatStrNN q

/-- The closed font catalog `FONT_MAP` (server.py line 24). -/
def FONT_MAP : List (String × String) :=
  [("Pacifico:style=Regular", "Pacifico-Regular.ttf"),
   ("Lobster:style=Regular", "Lobster-Regular.ttf")]

/-- Model of `FONT_MAP.get(font_key)`: a non-string key is hashable but
matches no string key, so the lookup returns `None`. -/
def FONT_MAP_get (key : Json) : Option String :=
  match key with
  | .str s => (FONT_MAP.find? (fun kv => kv.1 == s)).map (fun kv => kv.2)
  | _ => none

/-- Display form of a JSON value inside a Python f-string (`str(x)`). -/
def jsonRepr (v : Json) : String :=
  match v with
  | .str s => s
  | .num q => pyFloatStr q
  | .null => "None"

/-- Model of `font_key.split(':')[0]` used to build the download name;
only reached when `font_key` matched a string key of the catalog. -/
def split_colon_head (k : Json) : String :=
  match k with
  | .str s => (s.splitOn ":").headD s
  | _ => ""

/-- The SceneDescription emitted at server.py lines 89-114: the OpenSCAD
program text, with every f-string interpolation rendered through the
float formatter.  `\x7b` and `\x7d` denote literal braces. -/
def scad_code (name : String) (text_height border_thickness width_option : ℚ)
    (font_spec : String) (offset : ℚ) : String :=
  let bt := pyFloatStr border_thickness
  let th := pyFloatStr text_height
  let wo := pyFloatStr width_option
  "\n$fn=12;  // Fast rendering\n\nmodule text_part() \x7b\n    linear_extrude(height="
    ++ bt ++ ")\n        offset(delta=" ++ bt ++ ")\n        text(\"" ++ name
    ++ "\", size=" ++ wo ++ ", font=\"" ++ font_spec
    ++ "\", halign=\"center\", valign=\"center\");\n    translate([0,0," ++ bt
    ++ "])\n        linear_extrude(height=" ++ th ++ ")\n            text(\"" ++ name
    ++ "\", size=" ++ wo ++ ", font=\"" ++ font_spec
    ++ "\", halign=\"center\", valign=\"center\");\n\x7d\n\nmodule hole_tab() \x7b\n    difference() \x7b\n        cylinder(h="
    ++ bt ++ ", d=8);\n        translate([0,0,-0.1])\n            cylinder(h="
    ++ pyFloatStr (border_thickness + 0.2)
    ++ ", d=4);\n    \x7d\n\x7d\n\nunion() \x7b\n    text_part();\n    translate(["
    ++ pyFloatStr (-offset) ++ ", 0, 0])\n        hole_tab();\n\x7d\n"

/-- Does `hay` start with `pat`? (character lists) -/
def listStartsWith : List Char → List Char → Bool
  | [], _ => true
  | _ :: _, [] => false
  | p :: ps, h :: hs => p == h && listStartsWith ps hs

/-- Does `pat` occur contiguously inside `hay`? (character lists) -/
def listHasSub (pat : List Char) : List Char → Bool
  | [] => pat.isEmpty
  | h :: hs => listStartsWith pat (h :: hs) || listHasSub pat hs

/-- Substring occurrence test on strings. -/
def strHasSub (hay pat : String) : Bool :=
  listHasSub pat.toList hay.toList

/-- Captured result of `subprocess.run`: exit code plus the two
diagnostic streams (`text=True`, so both are strings). -/
structure ProcResult where
  returncode : Int
  stdout : String
  stderr : String
deriving DecidableEq, Repr

/-- Behaviour of the external renderer invocation for one request:
either the subprocess completes with a `ProcResult` and optionally
produces the output STL file (its raw bytes), or the invocation raises
an exception (e.g. the engine binary is missing). -/
inductive RenderBehavior where
  | completes (r : ProcResult) (stl : Option (List Nat))
  | raises (msg : String)

/-- HTTP-level outcome of the route handler: a structured JSON error
with a status code, or a binary STL attachment. -/
inductive Response where
  | errorResp (error : String) (details : Option String) (status : Nat)
  | fileResp (bytes : List Nat) (download_name : String)
deriving DecidableEq, Repr

/-- Status code carried by a response (a file attachment is served with
status 200). -/
def response_status : Response → Nat
  | .errorResp _ _ s => s
  | .fileResp _ _ => 200

/-- Python truthiness fallback on strings: `a if a else b`. -/
def pyStrOr (a b : String) : String :=
  if a = "" then b else a

/-- Result of one route invocation: the HTTP response, whether the
pipeline reached the external-renderer invocation (`spawned`), and
whether the scoped temporary directory still exists on disk after the
handler returns (`tmpdir_alive`). -/
structure RunResult where
  response : Response
  spawned : Bool
  tmpdir_alive : Bool
deriving DecidableEq, Repr

/-- Per-request environment: whether the catalog-referenced font file is
present under `fonts/`, and how the external renderer behaves. -/
structure Env where
  font_exists : String → Bool
  render : RenderBehavior

/-- The `with tempfile.TemporaryDirectory()` block (server.py lines
117-159): write the scene file, run OpenSCAD, classify the outcome.
Every exit path of the block — the classified returns and the raising
path — passes through `TemporaryDirectory.__exit__`, so `tmpdir_alive`
is `false` on each; an exception propagates to the outer handler, which
turns it into a status-500 error. -/
def run_render_job (render : RenderBehavior) (name : String) (font_key : Json) : RunResult :=
  match render with
  | .raises msg =>
    { response := .errorResp msg none 500, spawned := true, tmpdir_alive := false }
  | .completes r stl =>
    if r.returncode ≠ 0 then
      let error_msg := pyStrOr r.stderr r.stdout
      { response := .errorResp "OpenSCAD failed" (some (pyStrOr error_msg "Unknown error")) 500,
        spawned := true, tmpdir_alive := false }
    else
      match stl with
      | none =>
        { response := .errorResp "STL file not generated" none 500,
          spawned := true, tmpdir_alive := false }
      | some stl_data =>
        { response := .fileResp stl_data (name ++ "_" ++ split_colon_head font_key ++ ".stl"),
          spawned := true, tmpdir_alive := false }

/-- The `/generate-stl` route handler `generate_stl` (server.py lines
62-165), one invocation: field extraction with defaults, sanitization,
float conversion, font resolution, offset and scene synthesis, then the
render job.  A raising step short-circuits to the `except Exception`
branch, which answers with the exception text and status 500; on those
paths no subprocess was spawned and no temporary directory survives. -/
def generate_stl (env : Env) (data : List (String × Json)) : RunResult :=
  match sanitize_name_py (dict_get data "name" (.str "Keychain")) with
  | .error e => { response := .errorResp e none 500, spawned := false, tmpdir_alive := false }
  | .ok name =>
    let font_key := dict_get data "font" (.str "Pacifico:style=Regular")
    match pyFloat (dict_get data "textHeight" (.num 3.0)) with
    | .error e => { response := .errorResp e none 500, spawned := false, tmpdir_alive := false }
    | .ok text_height =>
      match pyFloat (dict_get data "borderThickness" (.num 2)) with
      | .error e => { response := .errorResp e none 500, spawned := false, tmpdir_alive := false }
      | .ok border_thickness =>
        match pyFloat (dict_get data "widthOption" (.num 15)) with
        | .error e => { response := .errorResp e none 500, spawned := false, tmpdir_alive := false }
        | .ok width_option =>
          match FONT_MAP_get font_key with
          | none =>
            { response := .errorResp ("Font \"" ++ jsonRepr font_key ++ "\" is not available") none 400,
              spawned := false, tmpdir_alive := false }
          | some font_file =>
            if env.font_exists font_file then
              let offset := calculate_hole_offset name width_option border_thickness
              let _scene := scad_code name text_height border_thickness width_option font_file offset
              run_render_job env.render name font_key
            else
              { response := .errorResp ("Font file \"" ++ font_file ++ "\" not found in fonts directory") none 500,
                spawned := false, tmpdir_alive := false }

/-- Concrete environment for witnesses: the font file is present and the
renderer completes successfully, producing a one-byte artifact. -/
def envOk : Env :=
  { font_exists := fun _ => true,
    render := .completes { returncode := 0, stdout := "", stderr := "" } (some [0]) }

theorem dict_get_eq_default (data : List (String × Json)) (key : String) (default : Json)
    (h : data.find? (fun kv => kv.1 == key) = none) :
    dict_get data key default = default := by
  simp [dict_get, h]

theorem dict_get_cons_self (k : String) (v : Json) (data : List (String × Json)) (default : Json) :
    dict_get ((k, v) :: data) k default = v := by
  simp [dict_get, List.find?]

theorem dict_get_cons_ne (k' : String) (v : Json) (data : List (String × Json))
    (key : String) (default : Json) (h : (k' == key) = false) :
    dict_get ((k', v) :: data) key default = dict_get data key default := by
  simp only [dict_get, List.find?, h]

/-- C6. Every sanitized name has length at most 20 and draws only on the
allowed character class `[a-zA-Z0-9 _-]`; a string that is already clean
and of length at most 20 is returned unchanged. -/
theorem sanitize_name_spec (s : String) :
    (sanitize_name s).length ≤ 20 ∧
    (∀ c ∈ (sanitize_name s).toList, allowed_char c = true) ∧
    ((∀ c ∈ s.toList, allowed_char c = true) → s.length ≤ 20 → sanitize_name s = s) := by
  refine ⟨?_, ?_, ?_⟩
  · show ((s.toList.filter allowed_char).take 20).length ≤ 20
    simp [List.length_take]
  · intro c hc
    have hc' : c ∈ (s.toList.filter allowed_char).take 20 := hc
    exact List.of_mem_filter (List.mem_of_mem_take hc')
  · intro hall hlen
    have hlen' : s.toList.length ≤ 20 := hlen
    show ((s.toList.filter allowed_char).take 20).asString = s
    rw [List.filter_eq_self.mpr hall, List.take_of_length_le hlen']
    exact s.asString_toList

/-- Witness for C6 at the concrete clean input `"Key_chain-1 X"`. -/
theorem sanitize_name_spec_witness :
    (sanitize_name "Key_chain-1 X").length ≤ 20 ∧ sanitize_name "Key_chain-1 X" = "Key_chain-1 X" :=
  ⟨(sanitize_name_spec "Key_chain-1 X").1,
   (sanitize_name_spec "Key_chain-1 X").2.2 (by decide) (by decide)⟩

/-- C2. The Layout Calculator returns exactly
`n * widthOption * 0.57 / 2 + borderThickness * (2.0 + (n - 2) * 0.1)`
for the sanitized name's length `n`; for `n = 0` the offset reduces to
`borderThickness * 1.8`. -/
theorem calculate_hole_offset_formula (name : String) (width_option border_thickness : ℚ) :
    calculate_hole_offset name width_option border_thickness =
      (name.length : ℚ) * width_option * 0.57 / 2
        + border_thickness * (2.0 + ((name.length : ℚ) - 2) * 0.1) ∧
    (name.length = 0 →
      calculate_hole_offset name width_option border_thickness = border_thickness * 1.8) := by
  constructor
  · simp only [calculate_hole_offset]
  · intro h
    simp only [calculate_hole_offset, h, Nat.cast_zero]
    ring_nf

/-- Witness for C2 at the empty name with `widthOption = 7`,
`borderThickness = 5`. -/
theorem calculate_hole_offset_formula_witness :
    calculate_hole_offset "" 7 5 =
      (("" : String).length : ℚ) * 7 * 0.57 / 2 + 5 * (2.0 + ((("" : String).length : ℚ) - 2) * 0.1) ∧
    calculate_hole_offset "" 7 5 = 5 * 1.8 :=
  ⟨(calculate_hole_offset_formula "" 7 5).1, (calculate_hole_offset_formula "" 7 5).2 rfl⟩

/-- C8. For positive `widthOption` and `borderThickness` the offset is
non-decreasing in the name length, and the step between adjacent lengths
never exceeds the per-character increment
`widthOption * 0.57 / 2 + borderThickness * 0.1`. -/
theorem offset_monotone_increment (width_option border_thickness : ℚ) (s t : String)
    (hw : 0 < width_option) (hb : 0 < border_thickness) :
    (s.length ≤ t.length →
      calculate_hole_offset s width_option border_thickness ≤
        calculate_hole_offset t width_option border_thickness) ∧
    (t.length = s.length + 1 →
      calculate_hole_offset t width_option border_thickness -
        calculate_hole_offset s width_option border_thickness ≤
          width_option * 0.57 / 2 + border_thickness * 0.1) := by
  simp only [calculate_hole_offset]
  constructor
  · intro hlen
    have hq : (s.length : ℚ) ≤ t.length := by exact_mod_cast hlen
    have hc : (0 : ℚ) ≤ width_option * 0.57 / 2 + border_thickness * 0.1 := by positivity
    have hstep := mul_nonneg (sub_nonneg.mpr hq) hc
    ring_nf at hstep ⊢
    linarith
  · intro hlen
    have hq : (t.length : ℚ) = s.length + 1 := by exact_mod_cast hlen
    rw [hq]
    ring_nf
    exact le_rfl

/-- Witness for C8 at `widthOption = 1`, `borderThickness = 1`, names
`""` and `"a"`. -/
theorem offset_monotone_increment_witness :
    calculate_hole_offset "" 1 1 ≤ calculate_hole_offset "a" 1 1 ∧
    calculate_hole_offset "a" 1 1 - calculate_hole_offset "" 1 1 ≤ 1 * 0.57 / 2 + 1 * 0.1 :=
  ⟨(offset_monotone_increment 1 1 "" "a" (by norm_num) (by norm_num)).1 (by decide),
   (offset_monotone_increment 1 1 "" "a" (by norm_num) (by norm_num)).2 (by decide)⟩

/-- C10. For any name length, nonnegative `widthOption` and positive
`borderThickness`, the offset is at least `1.8 * borderThickness`, hence
strictly positive, so the hole tab's X-translation `-offset` in the
emitted scene is strictly negative. -/
theorem offset_lower_bound (name : String) (width_option border_thickness : ℚ)
    (hw : 0 ≤ width_option) (hb : 0 < border_thickness) :
    1.8 * border_thickness ≤ calculate_hole_offset name width_option border_thickness ∧
    -calculate_hole_offset name width_option border_thickness < 0 := by
  simp only [calculate_hole_offset]
  have hn : (0 : ℚ) ≤ (name.length : ℚ) := Nat.cast_nonneg _
  have h1 : (0 : ℚ) ≤ (name.length : ℚ) * width_option := mul_nonneg hn hw
  have h2 : (0 : ℚ) ≤ (name.length : ℚ) * border_thickness := mul_nonneg hn hb.le
  constructor
  · nlinarith
  · nlinarith

/-- Witness for C10 at `name = "x"`, `widthOption = 0`,
`borderThickness = 1`. -/
theorem offset_lower_bound_witness :
    1.8 * 1 ≤ calculate_hole_offset "x" 0 1 ∧ -calculate_hole_offset "x" 0 1 < 0 :=
  offset_lower_bound "x" 0 1 (by norm_num) (by norm_num)

/-- C9. On every branch of the route handler — success, renderer
non-zero exit, missing output file, raising renderer, and every
pre-render failure — the scoped temporary directory no longer exists
when the handler returns. -/
theorem tmpdir_released (env : Env) (data : List (String × Json)) :
    (generate_stl env data).tmpdir_alive = false := by
  unfold generate_stl run_render_job
  rcases sanitize_name_py (dict_get data "name" (.str "Keychain")) with e | name
  · rfl
  · rcases pyFloat (dict_get data "textHeight" (.num 3.0)) with e | th
    · rfl
    · rcases pyFloat (dict_get data "borderThickness" (.num 2)) with e | bt
      · rfl
      · rcases pyFloat (dict_get data "widthOption" (.num 15)) with e | wo
        · rfl
        · rcases hf : FONT_MAP_get (dict_get data "font" (.str "Pacifico:style=Regular")) with _ | font_file
          · simp [hf]
          · simp only [hf]
            by_cases hex : env.font_exists font_file
            · simp only [hex, if_true]
              rcases env.render with ⟨r, stl⟩ | msg
              · by_cases hrc : r.returncode ≠ 0
                · simp [hrc]
                · simp only [hrc, if_false]
                  rcases stl with _ | b <;> rfl
              · rfl
            · simp [hex]

set_option maxRecDepth 100000 in
/-- C3. Round-trip scenario: for the request values `name = "AB"`,
`textHeight = 3`, `borderThickness = 2`, `widthOption = 15`, the name
survives sanitization, the computed offset is exactly `12.55`, and the
synthesized SceneDescription embeds the literal text `"AB"` and `-12.55`
as the hole tab's X-translation. -/
theorem round_trip_AB_scene :
    sanitize_name "AB" = "AB" ∧
    calculate_hole_offset (sanitize_name "AB") 15 2 = 12.55 ∧
    strHasSub (scad_code (sanitize_name "AB") 3 2 15 "Pacifico-Regular.ttf"
      (calculate_hole_offset (sanitize_name "AB") 15 2)) "text(\"AB\"" = true ∧
    strHasSub (scad_code (sanitize_name "AB") 3 2 15 "Pacifico-Regular.ttf"
      (calculate_hole_offset (sanitize_name "AB") 15 2)) "translate([-12.55, 0, 0])" = true := by
  with_unfolding_all decide

set_option maxRecDepth 100000 in
/-- Counterexample to C1 as stated: when the renderer exits non-zero
with BOTH diagnostic streams empty, the failure detail is the fixed
text `"Unknown error"` (from `error_msg or 'Unknown error'` at
server.py line 143), not the captured standard-output text `""` that
the claim requires. -/
theorem render_detail_counterexample :
    (run_render_job (.completes { returncode := 1, stdout := "", stderr := "" } none)
        "Keychain" (Json.str "Pacifico:style=Regular")).response =
      Response.errorResp "OpenSCAD failed" (some "Unknown error") 500 ∧
    ¬ (run_render_job (.completes { returncode := 1, stdout := "", stderr := "" } none)
        "Keychain" (Json.str "Pacifico:style=Regular")).response =
      Response.errorResp "OpenSCAD failed" (some "") 500 := by
  with_unfolding_all decide

/-- C1 (amended). Classification of the render step: non-zero exit code
gives the `EngineExecutionFailed` response (`"OpenSCAD failed"`, status
500) whose detail is stderr when non-empty, else stdout when non-empty,
else the fixed text `"Unknown error"`; zero exit code with no output
file gives the `ArtifactNotProduced` response (`"STL file not
generated"`, status 500); zero exit code with an output file gives a
success whose artifact is the file's raw bytes. -/
theorem render_outcome_classification (r : ProcResult) (stl : Option (List Nat))
    (name : String) (font_key : Json) :
    (r.returncode ≠ 0 →
      (run_render_job (.completes r stl) name font_key).response =
        Response.errorResp "OpenSCAD failed"
          (some (if r.stderr ≠ "" then r.stderr
                 else if r.stdout ≠ "" then r.stdout else "Unknown error")) 500) ∧
    (r.returncode = 0 → stl = none →
      (run_render_job (.completes r stl) name font_key).response =
        Response.errorResp "STL file not generated" none 500) ∧
    (∀ b, r.returncode = 0 → stl = some b →
      (run_render_job (.completes r stl) name font_key).response =
        Response.fileResp b (name ++ "_" ++ split_colon_head font_key ++ ".stl")) := by
  refine ⟨?_, ?_, ?_⟩
  · intro hrc
    simp only [run_render_job, hrc, if_true, pyStrOr]
    by_cases h1 : r.stderr = "" <;> by_cases h2 : r.stdout = "" <;> simp [h1, h2, hrc]
  · intro hrc hstl
    simp [run_render_job, hrc, hstl]
  · intro b hrc hstl
    simp [run_render_job, hrc, hstl]

/-- Witness for C1 applying the classification at concrete render
results: exit 1 with stderr `"err"`, exit 0 with no file, and exit 0
with a one-byte file. -/
theorem render_outcome_classification_witness :
    (run_render_job (.completes { returncode := 1, stdout := "out", stderr := "err" } none)
        "AB" (Json.str "Pacifico:style=Regular")).response =
      Response.errorResp "OpenSCAD failed"
        (some (if ({ returncode := 1, stdout := "out", stderr := "err" } : ProcResult).stderr ≠ ""
               then ({ returncode := 1, stdout := "out", stderr := "err" } : ProcResult).stderr
               else if ({ returncode := 1, stdout := "out", stderr := "err" } : ProcResult).stdout ≠ ""
               then ({ returncode := 1, stdout := "out", stderr := "err" } : ProcResult).stdout
               else "Unknown error")) 500 ∧
    (run_render_job (.completes { returncode := 0, stdout := "", stderr := "" } none)
        "AB" (Json.str "Pacifico:style=Regular")).response =
      Response.errorResp "STL file not generated" none 500 ∧
    (run_render_job (.completes { returncode := 0, stdout := "", stderr := "" } (some [7]))
        "AB" (Json.str "Pacifico:style=Regular")).response =
      Response.fileResp [7] ("AB" ++ "_" ++ split_colon_head (Json.str "Pacifico:style=Regular") ++ ".stl") :=
  ⟨(render_outcome_classification { returncode := 1, stdout := "out", stderr := "err" } none
      "AB" (Json.str "Pacifico:style=Regular")).1 (by decide),
   (render_outcome_classification { returncode := 0, stdout := "", stderr := "" } none
      "AB" (Json.str "Pacifico:style=Regular")).2.1 rfl rfl,
   (render_outcome_classification { returncode := 0, stdout := "", stderr := "" } (some [7])
      "AB" (Json.str "Pacifico:style=Regular")).2.2 [7] rfl rfl⟩

set_option maxRecDepth 100000 in
/-- Counterexample to C4 as stated: the request
`{name: 1, font: "NonexistentFont"}` has a font key outside the catalog,
yet the pipeline answers with the status-500 `TypeError` response from
the sanitizer (field extraction runs before font resolution), not the
status-400 `UnknownFont` client error. -/
theorem unknown_font_counterexample :
    FONT_MAP_get (dict_get [("name", Json.num 1), ("font", Json.str "NonexistentFont")]
      "font" (Json.str "Pacifico:style=Regular")) = none ∧
    (generate_stl envOk [("name", Json.num 1), ("font", Json.str "NonexistentFont")]).response =
      Response.errorResp "expected string or bytes-like object" none 500 ∧
    ¬ response_status
        ((generate_stl envOk [("name", Json.num 1), ("font", Json.str "NonexistentFont")]).response)
      = 400 := by
  with_unfolding_all decide

/-- C4 (amended). For every request whose font key is outside the
catalog, no renderer subprocess is ever spawned; and when the name and
numeric fields are themselves well-formed (so that no earlier exception
preempts the font check), the response is the status-400 client error
naming the unavailable font. -/
theorem unknown_font_response (env : Env) (data : List (String × Json))
    (hfont : FONT_MAP_get (dict_get data "font" (Json.str "Pacifico:style=Regular")) = none) :
    (generate_stl env data).spawned = false ∧
    (∀ nm th bt wo,
      sanitize_name_py (dict_get data "name" (Json.str "Keychain")) = .ok nm →
      pyFloat (dict_get data "textHeight" (Json.num 3.0)) = .ok th →
      pyFloat (dict_get data "borderThickness" (Json.num 2)) = .ok bt →
      pyFloat (dict_get data "widthOption" (Json.num 15)) = .ok wo →
      (generate_stl env data).response =
        Response.errorResp
          ("Font \"" ++ jsonRepr (dict_get data "font" (Json.str "Pacifico:style=Regular"))
            ++ "\" is not available") none 400) := by
  constructor
  · unfold generate_stl
    rcases sanitize_name_py (dict_get data "name" (.str "Keychain")) with e | nm
    · rfl
    · rcases pyFloat (dict_get data "textHeight" (.num 3.0)) with e | th
      · rfl
      · rcases pyFloat (dict_get data "borderThickness" (.num 2)) with e | bt
        · rfl
        · rcases pyFloat (dict_get data "widthOption" (.num 15)) with e | wo
          · rfl
          · simp [hfont]
  · intro nm th bt wo h1 h2 h3 h4
    unfold generate_stl
    simp [h1, h2, h3, h4, hfont]

/-- Witness for C4 at the request `{font: "Nope"}` with all other
fields defaulted. -/
theorem unknown_font_response_witness :
    (generate_stl envOk [("font", Json.str "Nope")]).spawned = false ∧
    (generate_stl envOk [("font", Json.str "Nope")]).response =
      Response.errorResp
        ("Font \"" ++ jsonRepr (dict_get [("font", Json.str "Nope")] "font"
          (Json.str "Pacifico:style=Regular")) ++ "\" is not available") none 400 :=
  ⟨(unknown_font_response envOk [("font", Json.str "Nope")] rfl).1,
   (unknown_font_response envOk [("font", Json.str "Nope")] rfl).2
     (sanitize_name "Keychain") 3.0 2 15 rfl rfl rfl rfl⟩

set_option maxRecDepth 100000 in
/-- Counterexample to C5 as stated: the request
`{textHeight: "abc"}` carries a malformed numeric parameter, and the
pipeline answers with status 500 — the generic server-fault status from
the outermost `except` handler (server.py line 165) — not with a
bad-input (4xx) status. -/
theorem invalid_input_status_counterexample :
    pyFloat (dict_get [("textHeight", Json.str "abc")] "textHeight" (Json.num 3.0)) =
      Except.error "could not convert string to float: abc" ∧
    (generate_stl envOk [("textHeight", Json.str "abc")]).response =
      Response.errorResp "could not convert string to float: abc" none 500 ∧
    ¬ response_status ((generate_stl envOk [("textHeight", Json.str "abc")]).response) < 500 := by
  with_unfolding_all decide

/-- C5 (amended). For every request whose name field is text and that
carries a malformed numeric parameter — whichever of `textHeight`,
`borderThickness` or `widthOption` is the first (in the evaluation
order of lines 67-69) to raise in `float()` — the pipeline returns an
error outcome carrying that exception text, reported with the generic
server-fault status 500 (the exception is caught by the outermost
handler, not by any client-error path), and no renderer subprocess is
spawned. -/
theorem malformed_number_server_fault (env : Env) (data : List (String × Json))
    (nm : String)
    (hname : sanitize_name_py (dict_get data "name" (Json.str "Keychain")) = .ok nm) :
    (∀ msg, pyFloat (dict_get data "textHeight" (Json.num 3.0)) = .error msg →
      (generate_stl env data).response = Response.errorResp msg none 500 ∧
      response_status (generate_stl env data).response = 500 ∧
      (generate_stl env data).spawned = false) ∧
    (∀ th msg, pyFloat (dict_get data "textHeight" (Json.num 3.0)) = .ok th →
      pyFloat (dict_get data "borderThickness" (Json.num 2)) = .error msg →
      (generate_stl env data).response = Response.errorResp msg none 500 ∧
      response_status (generate_stl env data).response = 500 ∧
      (generate_stl env data).spawned = false) ∧
    (∀ th bt msg, pyFloat (dict_get data "textHeight" (Json.num 3.0)) = .ok th →
      pyFloat (dict_get data "borderThickness" (Json.num 2)) = .ok bt →
      pyFloat (dict_get data "widthOption" (Json.num 15)) = .error msg →
      (generate_stl env data).response = Response.errorResp msg none 500 ∧
      response_status (generate_stl env data).response = 500 ∧
      (generate_stl env data).spawned = false) := by
  refine ⟨?_, ?_, ?_⟩
  · intro msg hth
    unfold generate_stl
    rw [hname, hth]
    exact ⟨rfl, rfl, rfl⟩
  · intro th msg hth hbt
    unfold generate_stl
    rw [hname, hth, hbt]
    exact ⟨rfl, rfl, rfl⟩
  · intro th bt msg hth hbt hwo
    unfold generate_stl
    rw [hname, hth, hbt, hwo]
    exact ⟨rfl, rfl, rfl⟩

/-- Witness for C5 at three concrete requests, one per malformed
numeric parameter: `{textHeight: "abc"}`, `{borderThickness: "wide"}`
and `{widthOption: null}`. -/
theorem malformed_number_server_fault_witness :
    ((generate_stl envOk [("textHeight", Json.str "abc")]).response =
        Response.errorResp "could not convert string to float: abc" none 500 ∧
      response_status (generate_stl envOk [("textHeight", Json.str "abc")]).response = 500 ∧
      (generate_stl envOk [("textHeight", Json.str "abc")]).spawned = false) ∧
    ((generate_stl envOk [("borderThickness", Json.str "wide")]).response =
        Response.errorResp "could not convert string to float: wide" none 500 ∧
      response_status (generate_stl envOk [("borderThickness", Json.str "wide")]).response = 500 ∧
      (generate_stl envOk [("borderThickness", Json.str "wide")]).spawned = false) ∧
    ((generate_stl envOk [("widthOption", Json.null)]).response =
        Response.errorResp "float() argument must be a string or a real number, not NoneType" none 500 ∧
      response_status (generate_stl envOk [("widthOption", Json.null)]).response = 500 ∧
      (generate_stl envOk [("widthOption", Json.null)]).spawned = false) :=
  ⟨(malformed_number_server_fault envOk [("textHeight", Json.str "abc")]
      (sanitize_name "Keychain") rfl).1
      "could not convert string to float: abc" (by with_unfolding_all decide),
   (malformed_number_server_fault envOk [("borderThickness", Json.str "wide")]
      (sanitize_name "Keychain") rfl).2.1
      3.0 "could not convert string to float: wide" rfl (by with_unfolding_all decide),
   (malformed_number_server_fault envOk [("widthOption", Json.null)]
      (sanitize_name "Keychain") rfl).2.2
      3.0 2 "float() argument must be a string or a real number, not NoneType" rfl rfl rfl⟩

set_option maxRecDepth 100000 in
/-- Counterexample to C7 as stated: for the request `{name: 1}` the name
field is present but not text, and the pipeline does NOT proceed with
the default label — `re.sub` raises `TypeError`, so the handler fails
with a status-500 error instead of producing the artifact that the same
request with the default label yields. -/
theorem nontext_name_counterexample :
    (generate_stl envOk [("name", Json.num 1)]).response =
      Response.errorResp "expected string or bytes-like object" none 500 ∧
    ¬ (generate_stl envOk [("name", Json.num 1)]).response =
      (generate_stl envOk [("name", Json.str "Keychain")]).response := by
  with_unfolding_all decide

/-- C7 (amended). The sanitizer itself has no error path on text, and an
ABSENT name field falls back to the fixed default label `"Keychain"`:
the request behaves exactly as if `name = "Keychain"` had been sent, and
the sanitize step succeeds with `"Keychain"`.  (A present but non-text
name instead raises `TypeError`, answered as a status-500 error.) -/
theorem absent_name_default (env : Env) (data : List (String × Json))
    (h : data.find? (fun kv => kv.1 == "name") = none) :
    sanitize_name_py (dict_get data "name" (.str "Keychain")) = .ok "Keychain" ∧
    generate_stl env data = generate_stl env (("name", Json.str "Keychain") :: data) := by
  have hname : dict_get data "name" (.str "Keychain") = .str "Keychain" :=
    dict_get_eq_default data "name" (.str "Keychain") h
  constructor
  · rw [hname]
    rfl
  · unfold generate_stl
    rw [hname, dict_get_cons_self,
      dict_get_cons_ne "name" (Json.str "Keychain") data "font"
        (Json.str "Pacifico:style=Regular") rfl,
      dict_get_cons_ne "name" (Json.str "Keychain") data "textHeight" (Json.num 3.0) rfl,
      dict_get_cons_ne "name" (Json.str "Keychain") data "borderThickness" (Json.num 2) rfl,
      dict_get_cons_ne "name" (Json.str "Keychain") data "widthOption" (Json.num 15) rfl]

/-- Witness for C7 at the empty request (no name field at all). -/
theorem absent_name_default_witness :
    sanitize_name_py (dict_get [] "name" (.str "Keychain")) = .ok "Keychain" ∧
    generate_stl envOk [] = generate_stl envOk [("name", Json.str "Keychain")] :=
  absent_name_default envOk [] rfl
